import Mathlib

/-!
Formal model of the paper-search / theory-document pipeline of this
repository: the source adapters, bibliography generation and aggregation
of `search_papers.py`, and the LaTeX document rendering of
`theory_explorer.py`.

Modelling conventions.  A Python dict field is an `Option` value
(`none` = key absent); a field whose value may itself be Python `None`
gets a second `Option` layer (`some none` = key present with value
`None`).  A Python exception is `Except.error` with a short message
naming the exception class; network and XML/JSON decoding are abstracted
by an `ApiResponse` argument, since the spec treats transport as an
external collaborator.
-/

/-- Python `str.replace` for a single-character pattern: every
occurrence of `c` is replaced by `rep`. -/
def replaceChar (c : Char) (rep : List Char) : List Char → List Char
  | [] => []
  | a :: as => if a = c then rep ++ replaceChar c rep as else a :: replaceChar c rep as

/-- String wrapper for `replaceChar`. -/
def py_replace_char (s : String) (c : Char) (rep : String) : String :=
  ⟨replaceChar c rep.data s.data⟩

/-- Python `str.strip`: drop whitespace from both ends. -/
def py_strip (s : String) : String :=
  ⟨((s.data.dropWhile Char.isWhitespace).reverse.dropWhile Char.isWhitespace).reverse⟩

/-- Python `str.lower`. -/
def py_lower (s : String) : String :=
  ⟨s.data.map Char.toLower⟩

/-- Python slicing `s[:n]` on a string (a hard cut after `n` code
points). -/
def py_take (n : Nat) (s : String) : String :=
  ⟨s.data.take n⟩

/-- Split a character list at every character satisfying `p`, keeping
empty chunks, as Python `str.split(sep)` does. -/
def splitOnPred (p : Char → Bool) : List Char → List (List Char)
  | [] => [[]]
  | a :: as =>
    match splitOnPred p as with
    | [] => [[]]
    | r :: rs => if p a then [] :: r :: rs else (a :: r) :: rs

/-- Python `str.split()` with no argument: split on whitespace runs and
drop empty tokens. -/
def py_words (s : String) : List String :=
  ((splitOnPred (fun c => c.isWhitespace) s.data).filter (fun l => l ≠ [])).map
    (fun l => (⟨l⟩ : String))

/-- Python `s.split(chr)[-1]`: the last chunk of a single-character
split (always defined, since a split is never empty). -/
def py_last_split (c : Char) (s : String) : String :=
  ⟨(splitOnPred (fun a => a = c) s.data).getLastD []⟩

/-- Python `sep.join(l)` over genuine strings. -/
def py_join (sep : String) : List String → String
  | [] => ""
  | [x] => x
  | x :: xs => x ++ sep ++ py_join sep xs

/-- A Python for-loop that builds a list and lets any per-element
exception escape: the first failing element aborts the whole
traversal. -/
def mapExcept {α β : Type} (f : α → Except String β) : List α → Except String (List β)
  | [] => Except.ok []
  | a :: as =>
    match f a with
    | Except.error e => Except.error e
    | Except.ok b =>
      match mapExcept f as with
      | Except.error e => Except.error e
      | Except.ok bs => Except.ok (b :: bs)

/-- Python `d.get(key, default)` on a field that is itself
`Option`-valued (the key may be present holding `None`). -/
def py_get {α : Type} (v : Option (Option α)) (d : α) : Option α :=
  match v with
  | none => some d
  | some x => x

/-- Interpolating a possibly-`None` value into an f-string: Python
renders `None` as the literal text `None`. -/
def py_str_or_none (v : Option String) : String :=
  match v with
  | none => "None"
  | some s => s

/-- Calling a method on a possibly-`None` value: `None` raises
`AttributeError`. -/
def py_attr {α : Type} (v : Option α) : Except String α :=
  match v with
  | none => Except.error "AttributeError"
  | some x => Except.ok x

/-- Indexing `[0]` or `[-1]` expressed through an optional lookup:
a missing element raises `IndexError`. -/
def py_index {α : Type} (v : Option α) : Except String α :=
  match v with
  | none => Except.error "IndexError: list index out of range"
  | some x => Except.ok x

/-- Decidable check that `sub` occurs as a prefix of `s`. -/
def isPrefixB : List Char → List Char → Bool
  | [], _ => true
  | _ :: _, [] => false
  | a :: as, b :: bs => a = b && isPrefixB as bs

/-- Decidable check that `sub` occurs contiguously somewhere in `s`. -/
def containsB (sub : List Char) : List Char → Bool
  | [] => isPrefixB sub []
  | b :: bs => isPrefixB sub (b :: bs) || containsB sub bs

/-- String containment: `sub` appears verbatim inside `s`. -/
def str_contains (s sub : String) : Bool :=
  containsB sub.data s.data

/-! ## The canonical Paper record

One field per dict key ever written by an adapter; `none` means the key
is absent from that dict (e.g. arXiv papers carry no `year` key and
Semantic Scholar papers carry no `date` key). -/

structure Paper where
  title : Option (Option String)
  authors : Option (List (Option String))
  abstract : Option String
  arxiv_id : Option String
  url : Option (Option String)
  pdf : Option (Option String)
  categories : Option (List (Option String))
  date : Option String
  year : Option (Option Int)
  citations : Option (Option Int)
  source : Option String
deriving DecidableEq, Repr

/-- The outcome of one upstream HTTP round trip, before any per-entry
processing: the transport layer or the feed-level decoder may fail, or
a decoded body is available. -/
inductive ApiResponse (α : Type) where
  | transportError (msg : String)
  | parseError (msg : String)
  | ok (body : α)
deriving DecidableEq, Repr

/-! ## arXiv adapter -/

/-- One `<entry>` element of the Atom feed.  For the scalar elements,
`none` models a missing element (`find` returns `None`, so `.text`
raises) and `some none` models an element whose text is `None`.  Each
author element carries the text of its `<name>` child the same way; a
category attribute lookup never raises and may be `None`. -/
structure ArxivEntry where
  title : Option (Option String)
  summary : Option (Option String)
  authorNames : List (Option (Option String))
  idText : Option (Option String)
  catTerms : List (Option String)
  published : Option (Option String)
deriving DecidableEq, Repr

/-- `element.text` preceded by a `find`: a missing element or a `None`
text raises when the code immediately calls a string method on it. -/
def xml_text (e : Option (Option String)) : Except String String :=
  match e with
  | some (some s) => Except.ok s
  | some none => Except.error "AttributeError"
  | none => Except.error "AttributeError"

/-- The `published` element feeds a slice `[:10]`: a missing element
raises `AttributeError` at `.text`, and a `None` text raises
`TypeError` at the subscript. -/
def arxiv_published_text (e : Option (Option String)) : Except String String :=
  match e with
  | some (some s) => Except.ok s
  | some none => Except.error "TypeError"
  | none => Except.error "AttributeError"

/-- Translate one feed entry into a Paper dict, in source order:
title, summary, the author loop, the id, then the published date.
Any failure escapes to the per-response handler. -/
def parse_arxiv_entry (e : ArxivEntry) : Except String Paper :=
  match xml_text e.title with
  | Except.error m => Except.error m
  | Except.ok t0 =>
    match xml_text e.summary with
    | Except.error m => Except.error m
    | Except.ok s0 =>
      match mapExcept py_attr e.authorNames with
      | Except.error m => Except.error m
      | Except.ok authors =>
        match xml_text e.idText with
        | Except.error m => Except.error m
        | Except.ok id0 =>
          match arxiv_published_text e.published with
          | Except.error m => Except.error m
          | Except.ok pub0 =>
            let title := py_replace_char (py_strip t0) '\n' " "
            let arxivId := py_last_split '/' id0
            Except.ok
              ⟨some (some title),
               some (authors.take 3),
               some (py_take 500 (py_strip s0)),
               some arxivId,
               some (some ("https://arxiv.org/abs/" ++ arxivId)),
               some (some ("https://arxiv.org/pdf/" ++ arxivId)),
               some (e.catTerms.take 3),
               some (py_take 10 pub0),
               none,
               none,
               some "arXiv"⟩

/-- The stderr diagnostic emitted by the arXiv handler. -/
def arxiv_error_msg (m : String) : String :=
  "⚠️ arXiv search error: " ++ m

/-- `search_arxiv`: the whole request/parse runs under one handler, so
any transport, feed-level or per-entry failure collapses the result to
the empty list plus one diagnostic.  The returned pair is
(papers, stderr diagnostics). -/
def search_arxiv (resp : ApiResponse (List ArxivEntry)) : List Paper × List String :=
  match resp with
  | ApiResponse.transportError m => ([], [arxiv_error_msg m])
  | ApiResponse.parseError m => ([], [arxiv_error_msg m])
  | ApiResponse.ok entries =>
    match mapExcept parse_arxiv_entry entries with
    | Except.error m => ([], [arxiv_error_msg m])
    | Except.ok papers => (papers, [])

/-! ## Semantic Scholar adapter -/

/-- One author object of the JSON reply: the `name` key may be absent
(`get` falls back to the empty string) or hold `null`. -/
structure SSAuthor where
  name : Option (Option String)
deriving DecidableEq, Repr

/-- The `openAccessPdf` key of one JSON paper object: absent (the code
substitutes an empty dict), `null` (the chained `get` raises
`AttributeError`), or an object whose `url` key is again optional and
nullable. -/
inductive SSPdfField where
  | absent
  | null
  | obj (url : Option (Option String))
deriving DecidableEq, Repr

/-- One paper object of the JSON reply.  The `authors` key may be
absent (default `[]`), `null` (slicing `None` raises `TypeError`) or a
list whose elements may themselves be `null` (calling `get` on `None`
raises `AttributeError`). -/
structure SSEntry where
  title : Option (Option String)
  authors : Option (Option (List (Option SSAuthor)))
  abstract : Option (Option String)
  year : Option (Option Int)
  citationCount : Option (Option Int)
  url : Option (Option String)
  openAccessPdf : SSPdfField
deriving DecidableEq, Repr

/-- The reply body: the `data` key may be absent (default `[]`),
`null` (iterating `None` raises `TypeError`) or the list of paper
objects. -/
structure SSBody where
  dataField : Option (Option (List SSEntry))
deriving DecidableEq, Repr

/-- `a.get(name, empty)` on one author object. -/
def ss_author_name (a : SSAuthor) : Option String :=
  py_get a.name ""

/-- Python `x or default` on a possibly-`None` string: `None` and the
empty string are both falsy. -/
def py_or_str (v : Option String) (d : String) : String :=
  match v with
  | none => d
  | some s => if s = "" then d else s

/-- Resolve `paper.get(authors, [])`: an absent key defaults to the
empty list and a `null` raises once the code slices it. -/
def ss_authors_value (v : Option (Option (List (Option SSAuthor)))) :
    Except String (List (Option SSAuthor)) :=
  match v with
  | none => Except.ok []
  | some none => Except.error "TypeError"
  | some (some l) => Except.ok l

/-- Resolve one element of the sliced author list: a `null` element
raises at its `get` call. -/
def ss_author_get (a : Option SSAuthor) : Except String (Option String) :=
  match a with
  | none => Except.error "AttributeError"
  | some au => Except.ok (ss_author_name au)

/-- Resolve `paper.get(openAccessPdf, empty dict).get(url, empty)`. -/
def ss_pdf_value (f : SSPdfField) : Except String (Option String) :=
  match f with
  | SSPdfField.absent => Except.ok (some "")
  | SSPdfField.null => Except.error "AttributeError"
  | SSPdfField.obj u => Except.ok (py_get u "")

/-- Translate one JSON paper object into a Paper dict: the author list
is sliced to three entries and mapped through `get`, the abstract is
`(abstract or empty)[:500]`, and `openAccessPdf` is resolved through a
chained `get`.  A `null` in the wrong place raises, escaping to the
per-response handler. -/
def parse_ss_entry (e : SSEntry) : Except String Paper :=
  match ss_authors_value e.authors with
  | Except.error m => Except.error m
  | Except.ok authorsRaw =>
    match mapExcept ss_author_get (authorsRaw.take 3) with
    | Except.error m => Except.error m
    | Except.ok authors =>
      match ss_pdf_value e.openAccessPdf with
      | Except.error m => Except.error m
      | Except.ok pdfVal =>
        Except.ok
          ⟨some (py_get e.title ""),
           some authors,
           some (py_take 500 (py_or_str (Option.join e.abstract) "")),
           none,
           some (py_get e.url ""),
           some pdfVal,
           none,
           none,
           some (Option.join e.year),
           some (py_get e.citationCount 0),
           some "Semantic Scholar"⟩

/-- The stderr diagnostic emitted by the Semantic Scholar handler. -/
def ss_error_msg (m : String) : String :=
  "⚠️ Semantic Scholar search error: " ++ m

/-- Resolve the `data` key and run the per-paper loop. -/
def ss_parse_body (b : SSBody) : Except String (List Paper) :=
  match b.dataField with
  | none => mapExcept parse_ss_entry []
  | some none => Except.error "TypeError"
  | some (some entries) => mapExcept parse_ss_entry entries

/-- `search_semantic_scholar`: one handler around the request and the
whole loop, yielding (papers, stderr diagnostics). -/
def search_semantic_scholar (resp : ApiResponse SSBody) : List Paper × List String :=
  match resp with
  | ApiResponse.transportError m => ([], [ss_error_msg m])
  | ApiResponse.parseError m => ([], [ss_error_msg m])
  | ApiResponse.ok b =>
    match ss_parse_body b with
    | Except.error m => ([], [ss_error_msg m])
    | Except.ok papers => (papers, [])

/-! ## Perplexity (AI-summary) adapter -/

/-- The `message` object of one reply choice; its `content` key may be
absent (default empty string) or `null`. -/
structure PerplexityMessage where
  content : Option (Option String)
deriving DecidableEq, Repr

/-- One element of the `choices` array; its `message` key may be absent
(the code substitutes an empty dict) or `null` (the chained `get`
raises `AttributeError`). -/
structure PerplexityChoice where
  message : Option (Option PerplexityMessage)
deriving DecidableEq, Repr

/-- The decoded completion reply; the `choices` key may be absent (the
code substitutes a one-element list holding an empty dict) or `null`
(indexing `None` raises `TypeError`). -/
structure PerplexityReply where
  choices : Option (Option (List PerplexityChoice))
deriving DecidableEq, Repr

/-- The dict returned by `search_perplexity`: either empty (both keys
absent) or `summary` plus `source`; the summary value may be `None`
when the reply carried a `null` content. -/
structure PerplexityResult where
  summary : Option (Option String)
  source : Option String
deriving DecidableEq, Repr

/-- Resolve the `choices` key with its default. -/
def perplexity_choices (r : PerplexityReply) : Except String (List PerplexityChoice) :=
  match r.choices with
  | none => Except.ok [⟨none⟩]
  | some none => Except.error "TypeError"
  | some (some l) => Except.ok l

/-- Resolve the `message` key of a choice with its default. -/
def perplexity_message (c : PerplexityChoice) : Except String PerplexityMessage :=
  match c.message with
  | none => Except.ok ⟨none⟩
  | some none => Except.error "AttributeError"
  | some (some m) => Except.ok m

/-- The extraction chain `get(choices, [empty])[0].get(message, empty
dict).get(content, empty string)`. -/
def perplexity_content (r : PerplexityReply) : Except String (Option String) :=
  match perplexity_choices r with
  | Except.error m => Except.error m
  | Except.ok cs =>
    match py_index cs.head? with
    | Except.error m => Except.error m
    | Except.ok c0 =>
      match perplexity_message c0 with
      | Except.error m => Except.error m
      | Except.ok msg => Except.ok (py_get msg.content "")

/-- The stderr diagnostic emitted when the credential is absent. -/
def perplexity_skip_msg : String :=
  "⚠️ OPENROUTER_API_KEY not set, skipping Perplexity search"

/-- The stderr diagnostic of the Perplexity handler. -/
def perplexity_error_msg (m : String) : String :=
  "⚠️ Perplexity search error: " ++ m

/-- `search_perplexity`: the credential check guards the whole body, so
an unset key (the empty string, Python falsy) short-circuits to an
empty dict without any request.  The middle component records whether
an HTTP call was attempted. -/
def search_perplexity (api_key : String) (resp : ApiResponse PerplexityReply) :
    PerplexityResult × Bool × List String :=
  if api_key = "" then (⟨none, none⟩, false, [perplexity_skip_msg])
  else
    match resp with
    | ApiResponse.transportError m => (⟨none, none⟩, true, [perplexity_error_msg m])
    | ApiResponse.parseError m => (⟨none, none⟩, true, [perplexity_error_msg m])
    | ApiResponse.ok r =>
      match perplexity_content r with
      | Except.error m => (⟨none, none⟩, true, [perplexity_error_msg m])
      | Except.ok c => (⟨some c, some "Perplexity Sonar Pro"⟩, true, [])

/-! ## BibTeX generation -/

/-- `paper.get(authors, [Unknown])`. -/
def py_get_authors (p : Paper) : List (Option String) :=
  match p.authors with
  | none => [some "Unknown"]
  | some l => l

/-- `paper.get(authors, [Unknown])[0].split()[-1]`: the last
whitespace token of the first author display name. -/
def py_first_author_token (p : Paper) : Except String String :=
  match py_index (py_get_authors p).head? with
  | Except.error m => Except.error m
  | Except.ok a0 =>
    match py_attr a0 with
    | Except.error m => Except.error m
    | Except.ok s => py_index (py_words s).getLast?

/-- The date-or-literal fallback of the year expression: the first four
characters of the `date` value if that prefix is nonempty, else the
literal 2024. -/
def py_year_from_date (p : Paper) : String :=
  let d := py_take 4 (Option.getD p.date "")
  if d = "" then "2024" else d

/-- `paper.get(year) or paper.get(date, empty)[:4] or 2024`, with
Python truthiness: a `None` or zero year falls through, as does an
empty date prefix. -/
def py_year (p : Paper) : String :=
  match Option.join p.year with
  | some y => if y = 0 then py_year_from_date p else toString y
  | none => py_year_from_date p

/-- `paper.get(title, paper)` followed by `.split()[0].lower()`. -/
def py_title_word (p : Paper) : Except String String :=
  match py_attr (py_get p.title "paper") with
  | Except.error m => Except.error m
  | Except.ok t =>
    match py_index (py_words t).head? with
    | Except.error m => Except.error m
    | Except.ok w => Except.ok (py_lower w)

/-- The citation key: lowercased last token of the first author, the
year string, and the lowercased first title word, concatenated. -/
def cite_key_of (p : Paper) : Except String String :=
  match py_first_author_token p with
  | Except.error m => Except.error m
  | Except.ok fa =>
    match py_title_word p with
    | Except.error m => Except.error m
    | Except.ok tw => Except.ok (py_lower fa ++ py_year p ++ tw)

/-- `sep.join(l)` over list elements that may be `None`: joining a
`None` raises `TypeError`. -/
def py_join_strs (sep : String) (l : List (Option String)) : Except String String :=
  match mapExcept (fun v =>
      match v with
      | none => Except.error "TypeError"
      | some s => Except.ok s) l with
  | Except.error m => Except.error m
  | Except.ok ss => Except.ok (py_join sep ss)

/-- One `@article` entry, with every interpolation as in the source
f-string (dict-get defaults apply only to absent keys; a present
`None` renders as the literal text `None`). -/
def generate_bibtex_entry (p : Paper) : Except String String :=
  match cite_key_of p with
  | Except.error m => Except.error m
  | Except.ok key =>
    match py_join_strs " and " (py_get_authors p) with
    | Except.error m => Except.error m
    | Except.ok authors_str =>
      Except.ok ("@article\x7b" ++ key ++ ",\n    title = \x7b"
        ++ py_str_or_none (py_get p.title "Unknown Title")
        ++ "\x7d,\n    author = \x7b" ++ authors_str
        ++ "\x7d,\n    year = \x7b" ++ py_year p
        ++ "\x7d,\n    url = \x7b" ++ py_str_or_none (py_get p.url "")
        ++ "\x7d,\n    note = \x7bSource: " ++ Option.getD p.source "Unknown"
        ++ "\x7d\n\x7d")

/-- `generate_bibtex`: one entry per paper, joined by blank lines; any
per-paper exception escapes to the caller. -/
def generate_bibtex (papers : List Paper) : Except String String :=
  match mapExcept generate_bibtex_entry papers with
  | Except.error m => Except.error m
  | Except.ok entries => Except.ok (py_join "\n\n" entries)

/-! ## Aggregation (`main` of `search_papers.py`) -/

/-- The aggregation of `main`: an empty accumulator extended first with
the arXiv results, then with the Semantic Scholar results. -/
def aggregate_papers (r1 : ApiResponse (List ArxivEntry)) (r2 : ApiResponse SSBody) :
    List Paper :=
  let all_papers : List Paper := []
  let all_papers := all_papers ++ (search_arxiv r1).1
  let all_papers := all_papers ++ (search_semantic_scholar r2).1
  all_papers

/-! ## Document rendering (`theory_explorer.py`)

The template of `generate_theory_tex` is `TEMPLATE.format(date=..,
problem=.., analysis=.., paper_list=..)`; it is embedded as the literal
chunks between the interpolation points, in order
date, problem, problem, analysis, paper_list. -/

/-- The comment rule line of the template (76 equals signs). -/
def latex_rule : String :=
  "%% " ++ String.mk (List.replicate 76 (Char.ofNat 61))

def theory_T1 : String :=
  latex_rule ++ "\n%% Theoretical Analysis - Auto-generated\n%% Author: Viska Wei\n%% Generated: "

def theory_T2 : String :=
  "\n" ++ latex_rule ++ "\n\n\\documentclass[11pt]\x7barticle\x7d\n\\usepackage\x7bamsmath,amssymb,amsthm\x7d\n\\usepackage[margin=1in]\x7bgeometry\x7d\n\\usepackage\x7bhyperref\x7d\n\\usepackage\x7btcolorbox\x7d\n\n\\newtheorem\x7btheorem\x7d\x7bTheorem\x7d[section]\n\\newtheorem\x7bproposition\x7d[theorem]\x7bProposition\x7d\n\\newtheorem\x7blemma\x7d[theorem]\x7bLemma\x7d\n\\newtheorem\x7bdefinition\x7d[theorem]\x7bDefinition\x7d\n\\newtheorem\x7bremark\x7d[theorem]\x7bRemark\x7d\n\\newtheorem\x7bassumption\x7d\x7bAssumption\x7d\n\n\\title\x7b\\textbf\x7bTheoretical Analysis\x7d\\\\[0.5em]\n\\large "

def theory_T3 : String :=
  "\x7d\n\\author\x7bViska Wei\x7d\n\\date\x7b\\today\x7d\n\n\\begin\x7bdocument\x7d\n\\maketitle\n\n\\begin\x7babstract\x7d\nThis document presents a comprehensive theoretical analysis for the research problem:\n\\emph\x7b"

def theory_T4 : String :=
  "\x7d.\nWe establish identifiability conditions, convergence rates, and information-theoretic lower bounds.\n\\end\x7babstract\x7d\n\n\\tableofcontents\n\\newpage\n\n" ++ latex_rule ++ "\n%% AI-Generated Analysis\n" ++ latex_rule ++ "\n\n"

def theory_T5 : String :=
  "\n\n" ++ latex_rule ++ "\n%% Related Work\n" ++ latex_rule ++ "\n\n\\section\x7bRelated Work\x7d\n\nThe following papers are relevant to this theoretical analysis:\n\n\\begin\x7benumerate\x7d\n"

def theory_T6 : String :=
  "\n\\end\x7benumerate\x7d\n\n\\bibliographystyle\x7bplain\x7d\n\\bibliography\x7brelated_papers\x7d\n\n\\end\x7bdocument\x7d\n"

/-- The escaping applied to the problem statement before
interpolation: only underscores are rewritten. -/
def escape_problem (s : String) : String :=
  py_replace_char s '_' "\\_"

/-- The escaping applied to each paper title before interpolation:
underscores, then ampersands. -/
def escape_title (s : String) : String :=
  py_replace_char (py_replace_char s '_' "\\_") '&' "\\&"

/-- One item of the Related Work list: escaped bold title, the first
two authors joined by a comma, and the link. -/
def paper_item (p : Paper) : Except String String :=
  match py_attr (py_get p.title "Unknown") with
  | Except.error m => Except.error m
  | Except.ok t =>
    match py_join_strs ", " ((py_get_authors p).take 2) with
    | Except.error m => Except.error m
    | Except.ok authors =>
      Except.ok ("    \\item \\textbf\x7b" ++ escape_title t ++ "\x7d by "
        ++ authors ++ ". \\url\x7b" ++ py_str_or_none (py_get p.url "") ++ "\x7d\n")

/-- The accumulated Related Work list text: the loop runs over
`papers[:10]` and appends one item per paper. -/
def paper_list (papers : List Paper) : Except String String :=
  match mapExcept paper_item (papers.take 10) with
  | Except.error m => Except.error m
  | Except.ok items => Except.ok (py_join "" items)

/-- The document text produced by `generate_theory_tex` (the two file
writes are outside this model): the paper list is built first, then the
template is filled, with the problem statement passed through
`escape_problem` and the analysis text inserted verbatim. -/
def generate_theory_tex (date problem analysis : String) (papers : List Paper) :
    Except String String :=
  match paper_list papers with
  | Except.error m => Except.error m
  | Except.ok pl =>
    Except.ok (theory_T1 ++ date ++ theory_T2 ++ escape_problem problem
      ++ theory_T3 ++ escape_problem problem ++ theory_T4 ++ analysis
      ++ theory_T5 ++ pl ++ theory_T6)

/-- The boilerplate returned by `compute_fisher_info_template`. -/
def compute_fisher_info_template : String :=
  "\n\\section\x7bFisher Information and CRLB\x7d\n\n\\subsection\x7bFisher Information Matrix\x7d\n\nFor a parametric model $p(X; \\theta)$, the Fisher information is:\n\\begin\x7bequation\x7d\nI(\\theta) = \\mathbb\x7bE\x7d\\left[\\nabla_\\theta \\log p(X; \\theta) \\nabla_\\theta \\log p(X; \\theta)^\\top\\right]\n\\end\x7bequation\x7d\n\n\\subsection\x7bCramér-Rao Lower Bound\x7d\n\nFor any unbiased estimator $\\hat\x7b\\theta\x7d$:\n\\begin\x7bequation\x7d\n\\mathrm\x7bVar\x7d(\\hat\x7b\\theta\x7d) \\geq I(\\theta)^\x7b-1\x7d\n\\end\x7bequation\x7d\n\n\\subsection\x7bPractical Computation\x7d\n\nFor the specific problem at hand, the Fisher information can be computed as:\n\n\\begin\x7btcolorbox\x7d[colback=yellow!5!white,colframe=yellow!75!black,title=TODO: Problem-Specific Fisher]\nReplace with actual Fisher information computation for your problem:\n\\begin\x7bitemize\x7d\n    \\item Model: $p(X; \\theta) = ...$\n    \\item Score: $\\nabla_\\theta \\log p = ...$\n    \\item Fisher: $I(\\theta) = ...$\n    \\item CRLB: $\\mathrm\x7bVar\x7d(\\hat\x7b\\theta\x7d) \\geq ...$\n\\end\x7bitemize\x7d\n\\end\x7btcolorbox\x7d\n"

/-- The placeholder skeleton substituted in `main` when no AI analysis
text is available (an f-string ending in the Fisher boilerplate). -/
def theory_fallback_analysis : String :=
  "\n\\section\x7bProblem Formulation\x7d\n\n% TODO: Fill in problem-specific formulation\n\n\\section\x7bIdentifiability\x7d\n\n% TODO: Establish identifiability conditions\n\n\\section\x7bConvergence Analysis\x7d\n\n% TODO: Derive convergence rates\n\n"
  ++ compute_fisher_info_template ++ "\n"

/-- The analysis text chosen by `main`: the summary field of the
Perplexity result with default empty, falling back to the placeholder
skeleton when that value is falsy (`None` or empty). -/
def theory_analysis_of (r : PerplexityResult) : String :=
  match py_get r.summary "" with
  | none => theory_fallback_analysis
  | some s => if s = "" then theory_fallback_analysis else s

/-! ## Concrete example values used by witnesses and counterexamples -/

/-- A well-formed Atom feed entry. -/
def arxGoodEntry : ArxivEntry :=
  ⟨some (some "Sparse Recovery Methods"), some (some " An abstract. "),
   [some (some "Ada Lovelace"), some (some "Alan Turing")],
   some (some "http://arxiv.org/abs/1234.5678v1"), [some "stat.ML"],
   some (some "2023-05-01T00:00:00Z")⟩

/-- The Paper record produced from `arxGoodEntry`. -/
def arxGoodPaper : Paper :=
  ⟨some (some "Sparse Recovery Methods"),
   some [some "Ada Lovelace", some "Alan Turing"],
   some "An abstract.",
   some "1234.5678v1",
   some (some "https://arxiv.org/abs/1234.5678v1"),
   some (some "https://arxiv.org/pdf/1234.5678v1"),
   some [some "stat.ML"],
   some "2023-05-01",
   none, none, some "arXiv"⟩

/-- A feed entry whose `published` element is missing: reading `.text`
on the failed `find` raises. -/
def arxBadEntry : ArxivEntry :=
  ⟨some (some "A Broken Entry"), some (some "abstract"), [], some (some "x/y"), [], none⟩

/-- A JSON paper object with every key omitted (an upstream reply that
carries none of the requested fields). -/
def ssEntryOmitted : SSEntry :=
  ⟨none, none, none, none, none, none, SSPdfField.absent⟩

/-- The Paper record produced from `ssEntryOmitted`: note the empty
(not placeholder) title. -/
def ssOmittedPaper : Paper :=
  ⟨some (some ""), some [], some "", none, some (some ""), some (some ""),
   none, none, some none, some (some 0), some "Semantic Scholar"⟩

/-- A Paper whose `year` key holds the integer zero (falsy in Python)
and which has no `date` key. -/
def pYearZero : Paper :=
  ⟨some (some "Sparse recovery"), some [some "Ada Lovelace"], none, none, none, none,
   none, none, some (some 0), none, none⟩

/-- A Paper with neither `year` nor `date` key. -/
def pYearNone : Paper :=
  ⟨some (some "Sparse recovery"), some [some "Ada Lovelace"], none, none, none, none,
   none, none, none, none, none⟩

/-- A Paper whose `authors` key is present but holds the empty list. -/
def pEmptyAuthors : Paper :=
  ⟨some (some "A Fine Title"), some [], none, none, none, none, none, none, none, none, none⟩

/-- A Paper whose `title` key is present but holds only whitespace. -/
def pWsTitle : Paper :=
  ⟨some (some "   "), some [some "Ada Lovelace"], none, none, none, none, none, none,
   none, none, none⟩

/-- A Paper dict with no keys at all: every `get` default applies. -/
def pNoKeys : Paper :=
  ⟨none, none, none, none, none, none, none, none, none, none, none⟩

/-- The document text rendered for the problem statement used by the
escaping counterexample (empty paper list, fixed date, analysis A). -/
def c1_doc : String :=
  theory_T1 ++ "2024-01-01" ++ theory_T2 ++ escape_problem "a_b & c"
    ++ theory_T3 ++ escape_problem "a_b & c" ++ theory_T4 ++ "A"
    ++ theory_T5 ++ "" ++ theory_T6

/-! ## Helper lemmas -/

lemma py_take_length_le (n : Nat) (s : String) : (py_take n s).length ≤ n := by
  show (s.data.take n).length ≤ n
  exact List.length_take_le n s.data

lemma mapExcept_mem {α β : Type} {f : α → Except String β} :
    ∀ {l : List α} {bs : List β}, mapExcept f l = Except.ok bs →
      ∀ b ∈ bs, ∃ a ∈ l, f a = Except.ok b := by
  intro l
  induction l with
  | nil =>
    intro bs h b hb
    simp [mapExcept] at h
    subst h
    simp at hb
  | cons a as ih =>
    intro bs h b hb
    unfold mapExcept at h
    cases h1 : f a with
    | error m => rw [h1] at h; cases h
    | ok b0 =>
      rw [h1] at h
      cases h2 : mapExcept f as with
      | error m => rw [h2] at h; cases h
      | ok bs0 =>
        rw [h2] at h
        cases h
        cases hb with
        | head => exact ⟨a, List.mem_cons_self a as, h1⟩
        | tail _ hb0 =>
          obtain ⟨a1, ha1, hfa1⟩ := ih h2 b hb0
          exact ⟨a1, List.mem_cons_of_mem a ha1, hfa1⟩

lemma mapExcept_append_error {α β : Type} {f : α → Except String β} {e : α} {m : String}
    (he : f e = Except.error m) :
    ∀ (pre post : List α), ∃ m2, mapExcept f (pre ++ e :: post) = Except.error m2 := by
  intro pre
  induction pre with
  | nil =>
    intro post
    exact ⟨m, by simp [mapExcept, he]⟩
  | cons a as ih =>
    intro post
    cases h1 : f a with
    | error m1 => exact ⟨m1, by simp [mapExcept, h1]⟩
    | ok b =>
      obtain ⟨m2, hm2⟩ := ih post
      exact ⟨m2, by simp [mapExcept, h1, hm2]⟩

lemma parse_arxiv_entry_fields {e : ArxivEntry} {p : Paper}
    (h : parse_arxiv_entry e = Except.ok p) :
    p.source = some "arXiv"
    ∧ (∃ t, p.title = some (some t))
    ∧ (∃ l, p.authors = some l ∧ l.length ≤ 3)
    ∧ (∃ a, p.abstract = some a ∧ a.length ≤ 500)
    ∧ (∃ c, p.categories = some c ∧ c.length ≤ 3) := by
  unfold parse_arxiv_entry at h
  cases h1 : xml_text e.title with
  | error m => rw [h1] at h; cases h
  | ok t0 =>
    rw [h1] at h
    cases h2 : xml_text e.summary with
    | error m => rw [h2] at h; cases h
    | ok s0 =>
      rw [h2] at h
      cases h3 : mapExcept py_attr e.authorNames with
      | error m => rw [h3] at h; cases h
      | ok authors =>
        rw [h3] at h
        cases h4 : xml_text e.idText with
        | error m => rw [h4] at h; cases h
        | ok id0 =>
          rw [h4] at h
          cases h5 : arxiv_published_text e.published with
          | error m => rw [h5] at h; cases h
          | ok pub0 =>
            rw [h5] at h
            cases h
            refine ⟨rfl, ⟨_, rfl⟩, ⟨_, rfl, List.length_take_le 3 authors⟩,
              ⟨_, rfl, py_take_length_le 500 _⟩, ⟨_, rfl, List.length_take_le 3 _⟩⟩

lemma mapExcept_length {α β : Type} {f : α → Except String β} :
    ∀ {l : List α} {bs : List β}, mapExcept f l = Except.ok bs → bs.length = l.length := by
  intro l
  induction l with
  | nil =>
    intro bs h
    simp [mapExcept] at h
    subst h
    rfl
  | cons a as ih =>
    intro bs h
    unfold mapExcept at h
    cases h1 : f a with
    | error m => rw [h1] at h; cases h
    | ok b0 =>
      rw [h1] at h
      cases h2 : mapExcept f as with
      | error m => rw [h2] at h; cases h
      | ok bs0 =>
        rw [h2] at h
        cases h
        simp [ih h2]

lemma parse_ss_entry_fields {e : SSEntry} {p : Paper}
    (h : parse_ss_entry e = Except.ok p) :
    p.source = some "Semantic Scholar"
    ∧ (∃ v, p.title = some v)
    ∧ (∃ l, p.authors = some l ∧ l.length ≤ 3)
    ∧ (∃ a, p.abstract = some a ∧ a.length ≤ 500)
    ∧ p.categories = none := by
  unfold parse_ss_entry at h
  cases h1 : ss_authors_value e.authors with
  | error m => rw [h1] at h; cases h
  | ok authorsRaw =>
    rw [h1] at h
    dsimp only at h
    cases h2 : mapExcept ss_author_get (authorsRaw.take 3) with
    | error m => rw [h2] at h; cases h
    | ok authors =>
      rw [h2] at h
      cases h3 : ss_pdf_value e.openAccessPdf with
      | error m => rw [h3] at h; cases h
      | ok pdfVal =>
        rw [h3] at h
        cases h
        have hlen : authors.length ≤ 3 := by
          rw [mapExcept_length h2]
          exact List.length_take_le 3 authorsRaw
        exact ⟨rfl, ⟨_, rfl⟩, ⟨_, rfl, hlen⟩, ⟨_, rfl, py_take_length_le 500 _⟩, rfl⟩

lemma search_arxiv_mem {r : ApiResponse (List ArxivEntry)} {p : Paper}
    (h : p ∈ (search_arxiv r).1) : ∃ e, parse_arxiv_entry e = Except.ok p := by
  cases r with
  | transportError m => simp [search_arxiv] at h
  | parseError m => simp [search_arxiv] at h
  | ok entries =>
    simp only [search_arxiv] at h
    cases h2 : mapExcept parse_arxiv_entry entries with
    | error m => rw [h2] at h; simp at h
    | ok papers =>
      rw [h2] at h
      dsimp only at h
      obtain ⟨e, _, he⟩ := mapExcept_mem h2 p h
      exact ⟨e, he⟩

lemma ss_parse_body_mem {b : SSBody} {papers : List Paper} {p : Paper}
    (h1 : ss_parse_body b = Except.ok papers) (h : p ∈ papers) :
    ∃ e, parse_ss_entry e = Except.ok p := by
  unfold ss_parse_body at h1
  cases hd : b.dataField with
  | none =>
    rw [hd] at h1
    simp [mapExcept] at h1
    subst h1
    simp at h
  | some v =>
    cases v with
    | none => rw [hd] at h1; cases h1
    | some entries =>
      rw [hd] at h1
      obtain ⟨e, _, he⟩ := mapExcept_mem h1 p h
      exact ⟨e, he⟩

lemma search_ss_mem {r : ApiResponse SSBody} {p : Paper}
    (h : p ∈ (search_semantic_scholar r).1) : ∃ e, parse_ss_entry e = Except.ok p := by
  cases r with
  | transportError m => simp [search_semantic_scholar] at h
  | parseError m => simp [search_semantic_scholar] at h
  | ok b =>
    simp only [search_semantic_scholar] at h
    cases h2 : ss_parse_body b with
    | error m => rw [h2] at h; simp at h
    | ok papers =>
      rw [h2] at h
      dsimp only at h
      exact ss_parse_body_mem h2 h

/-! ## Claim theorems -/

/-- C4: for every pair of adapter outcomes, the aggregation of `main`
equals the arXiv result sequence followed by the Semantic Scholar
result sequence: each block is preserved verbatim (order and records),
and the total count is the sum, so nothing is deduplicated or
mutated. -/
theorem C4_aggregation_is_ordered_concat (r1 : ApiResponse (List ArxivEntry))
    (r2 : ApiResponse SSBody) :
    aggregate_papers r1 r2 = (search_arxiv r1).1 ++ (search_semantic_scholar r2).1
    ∧ (aggregate_papers r1 r2).take (search_arxiv r1).1.length = (search_arxiv r1).1
    ∧ (aggregate_papers r1 r2).drop (search_arxiv r1).1.length = (search_semantic_scholar r2).1
    ∧ (aggregate_papers r1 r2).length
        = (search_arxiv r1).1.length + (search_semantic_scholar r2).1.length := by
  refine ⟨rfl, ?_, ?_, ?_⟩
  · show ((search_arxiv r1).1 ++ (search_semantic_scholar r2).1).take _ = _
    exact List.take_left _ _
  · show ((search_arxiv r1).1 ++ (search_semantic_scholar r2).1).drop _ = _
    exact List.drop_left _ _
  · show ((search_arxiv r1).1 ++ (search_semantic_scholar r2).1).length = _
    exact List.length_append _ _

/-- C6: each data adapter converts any transport, response-level or
per-entry failure into the empty paper list plus one stderr
diagnostic, and a response with zero entries yields the empty list
with no diagnostic; nothing escapes the adapter. -/
theorem C6_adapter_error_containment :
    (∀ m, search_arxiv (ApiResponse.transportError m) = ([], [arxiv_error_msg m]))
    ∧ (∀ m, search_arxiv (ApiResponse.parseError m) = ([], [arxiv_error_msg m]))
    ∧ (∀ entries m, mapExcept parse_arxiv_entry entries = Except.error m →
        search_arxiv (ApiResponse.ok entries) = ([], [arxiv_error_msg m]))
    ∧ search_arxiv (ApiResponse.ok []) = ([], [])
    ∧ (∀ m, search_semantic_scholar (ApiResponse.transportError m) = ([], [ss_error_msg m]))
    ∧ (∀ m, search_semantic_scholar (ApiResponse.parseError m) = ([], [ss_error_msg m]))
    ∧ (∀ b m, ss_parse_body b = Except.error m →
        search_semantic_scholar (ApiResponse.ok b) = ([], [ss_error_msg m]))
    ∧ search_semantic_scholar (ApiResponse.ok ⟨none⟩) = ([], [])
    ∧ search_semantic_scholar (ApiResponse.ok ⟨some (some [])⟩) = ([], []) := by
  refine ⟨fun m => rfl, fun m => rfl, ?_, rfl, fun m => rfl, fun m => rfl, ?_, rfl, rfl⟩
  · intro entries m h
    simp [search_arxiv, h]
  · intro b m h
    simp [search_semantic_scholar, h]

/-- C6 witness: a feed whose single entry lacks its published element
collapses to the empty list plus the arXiv diagnostic, and a reply
whose data key is null collapses to the empty list plus the Semantic
Scholar diagnostic. -/
theorem C6_adapter_error_containment_witness :
    search_arxiv (ApiResponse.ok [arxBadEntry]) = ([], [arxiv_error_msg "AttributeError"])
    ∧ search_semantic_scholar (ApiResponse.ok ⟨some none⟩) = ([], [ss_error_msg "TypeError"]) :=
  ⟨C6_adapter_error_containment.2.2.1 [arxBadEntry] "AttributeError" rfl,
   C6_adapter_error_containment.2.2.2.2.2.2.1 ⟨some none⟩ "TypeError" rfl⟩

/-- C8: with the credential unset (the empty string, the environment
default), the Perplexity adapter returns the empty dict without
attempting any call, whatever the network would have answered, and
emits the skip diagnostic; the paper pipeline is untouched. -/
theorem C8_missing_credential_is_noop (resp : ApiResponse PerplexityReply) :
    search_perplexity "" resp = (⟨none, none⟩, false, [perplexity_skip_msg]) := by
  simp [search_perplexity]

/-- C10: `generate_bibtex` raises `IndexError` on a Paper whose
`authors` key holds the empty list, and on a Paper whose `title` key
holds a whitespace-only string, while a Paper with no keys at all is
rendered successfully from the `get` defaults: the defaults cover only
absent keys, not present-but-empty values. -/
theorem C10_generate_bibtex_is_partial :
    pEmptyAuthors.authors = some []
    ∧ generate_bibtex [pEmptyAuthors] = Except.error "IndexError: list index out of range"
    ∧ pWsTitle.title = some (some "   ")
    ∧ generate_bibtex [pWsTitle] = Except.error "IndexError: list index out of range"
    ∧ pNoKeys.authors = none ∧ pNoKeys.title = none
    ∧ generate_bibtex [pNoKeys] = Except.ok
        "@article\x7bunknown2024paper,\n    title = \x7bUnknown Title\x7d,\n    author = \x7bUnknown\x7d,\n    year = \x7b2024\x7d,\n    url = \x7b\x7d,\n    note = \x7bSource: Unknown\x7d\n\x7d" :=
  ⟨rfl, rfl, rfl, rfl, rfl, rfl, rfl⟩

set_option maxRecDepth 40000 in
/-- C1: the renderer escapes underscores and ampersands in paper
titles, but only underscores in the problem statement, so the problem
statement `a_b & c` reaches the rendered document as `a\_b & c` with
the ampersand raw, not as the `a\_b \& c` form required by the
claim. -/
theorem C1_problem_ampersand_unescaped :
    escape_problem "a_b & c" = "a\\_b & c"
    ∧ escape_title "a_b & c" = "a\\_b \\& c"
    ∧ generate_theory_tex "2024-01-01" "a_b & c" "A" [] = Except.ok c1_doc
    ∧ str_contains c1_doc "a\\_b & c" = true
    ∧ str_contains c1_doc "a\\_b \\& c" = false :=
  ⟨rfl, rfl, rfl, by decide, by decide⟩

/-- C2 counterexample: a Semantic Scholar reply whose paper object
omits the title yields a Paper whose title is the empty string, not a
placeholder literal, so a produced Paper can have an empty title. -/
theorem C2_counterexample_empty_title :
    (search_semantic_scholar (ApiResponse.ok ⟨some (some [ssEntryOmitted])⟩)).1
      = [ssOmittedPaper]
    ∧ ssOmittedPaper.title = some (some "") :=
  ⟨rfl, rfl⟩

/-- C2 amended: every Paper produced by the arXiv or Semantic Scholar
adapter carries the adapter literal in `source` and has a `title` key
present (arXiv titles are always genuine strings), but the title value
may be empty or `None`; placeholder literals are applied only later by
the renderers. -/
theorem C2_amended_source_and_title_key (r1 : ApiResponse (List ArxivEntry))
    (r2 : ApiResponse SSBody) (p q : Paper) :
    (p ∈ (search_arxiv r1).1 → p.source = some "arXiv" ∧ ∃ t, p.title = some (some t))
    ∧ (q ∈ (search_semantic_scholar r2).1 →
        q.source = some "Semantic Scholar" ∧ ∃ v, q.title = some v) := by
  constructor
  · intro h
    obtain ⟨e, he⟩ := search_arxiv_mem h
    obtain ⟨hsrc, ht, _⟩ := parse_arxiv_entry_fields he
    exact ⟨hsrc, ht⟩
  · intro h
    obtain ⟨e, he⟩ := search_ss_mem h
    obtain ⟨hsrc, ht, _⟩ := parse_ss_entry_fields he
    exact ⟨hsrc, ht⟩

/-- C2 witness: the amended statement applied to one concrete paper
from each adapter. -/
theorem C2_amended_source_and_title_key_witness :
    (arxGoodPaper.source = some "arXiv" ∧ ∃ t, arxGoodPaper.title = some (some t))
    ∧ (ssOmittedPaper.source = some "Semantic Scholar"
        ∧ ∃ v, ssOmittedPaper.title = some v) :=
  ⟨(C2_amended_source_and_title_key (ApiResponse.ok [arxGoodEntry])
      (ApiResponse.ok ⟨none⟩) arxGoodPaper ssOmittedPaper).1 (by decide),
   (C2_amended_source_and_title_key (ApiResponse.ok [arxGoodEntry])
      (ApiResponse.ok ⟨some (some [ssEntryOmitted])⟩) arxGoodPaper ssOmittedPaper).2
      (by decide)⟩

/-- C5: every Paper either adapter produces has an abstract of at most
500 characters, at most 3 authors, and at most 3 categories (a
Semantic Scholar paper has no categories key at all). -/
theorem C5_truncation_bounds (r1 : ApiResponse (List ArxivEntry))
    (r2 : ApiResponse SSBody) (p q : Paper) :
    (p ∈ (search_arxiv r1).1 →
        (Option.getD p.abstract "").length ≤ 500
        ∧ (Option.getD p.authors []).length ≤ 3
        ∧ (Option.getD p.categories []).length ≤ 3)
    ∧ (q ∈ (search_semantic_scholar r2).1 →
        (Option.getD q.abstract "").length ≤ 500
        ∧ (Option.getD q.authors []).length ≤ 3
        ∧ (Option.getD q.categories []).length ≤ 3
        ∧ q.categories = none) := by
  constructor
  · intro h
    obtain ⟨e, he⟩ := search_arxiv_mem h
    obtain ⟨_, _, ⟨l, hl, hl3⟩, ⟨a, ha, ha500⟩, ⟨c, hc, hc3⟩⟩ := parse_arxiv_entry_fields he
    rw [ha, hl, hc]
    exact ⟨ha500, hl3, hc3⟩
  · intro h
    obtain ⟨e, he⟩ := search_ss_mem h
    obtain ⟨_, _, ⟨l, hl, hl3⟩, ⟨a, ha, ha500⟩, hc⟩ := parse_ss_entry_fields he
    rw [ha, hl, hc]
    exact ⟨ha500, hl3, by simp, rfl⟩

/-- C5 witness: the bounds applied to one concrete paper from each
adapter. -/
theorem C5_truncation_bounds_witness :
    ((Option.getD arxGoodPaper.abstract "").length ≤ 500
      ∧ (Option.getD arxGoodPaper.authors []).length ≤ 3
      ∧ (Option.getD arxGoodPaper.categories []).length ≤ 3)
    ∧ ((Option.getD ssOmittedPaper.abstract "").length ≤ 500
      ∧ (Option.getD ssOmittedPaper.authors []).length ≤ 3
      ∧ (Option.getD ssOmittedPaper.categories []).length ≤ 3
      ∧ ssOmittedPaper.categories = none) :=
  ⟨(C5_truncation_bounds (ApiResponse.ok [arxGoodEntry]) (ApiResponse.ok ⟨none⟩)
      arxGoodPaper ssOmittedPaper).1 (by decide),
   (C5_truncation_bounds (ApiResponse.ok [arxGoodEntry])
      (ApiResponse.ok ⟨some (some [ssEntryOmitted])⟩) arxGoodPaper ssOmittedPaper).2
      (by decide)⟩

/-- C7 counterexample: a feed holding one well-formed entry followed by
one entry whose published element is missing yields no papers at all,
although the well-formed entry parses on its own; the bad entry is not
skipped per-record. -/
theorem C7_counterexample_bad_entry_drops_all :
    parse_arxiv_entry arxGoodEntry = Except.ok arxGoodPaper
    ∧ (search_arxiv (ApiResponse.ok [arxGoodEntry, arxBadEntry])).1 = []
    ∧ (search_arxiv (ApiResponse.ok [arxGoodEntry])).1 = [arxGoodPaper] :=
  ⟨rfl, rfl, rfl⟩

/-- C7 amended: one unparsable entry anywhere in the feed aborts the
whole response, which is recovered per-source: the adapter returns the
empty sequence plus one diagnostic, discarding every well-formed
entry. -/
theorem C7_amended_whole_response_abort (pre : List ArxivEntry) (e : ArxivEntry)
    (post : List ArxivEntry) (m : String) (h : parse_arxiv_entry e = Except.error m) :
    ∃ m2, search_arxiv (ApiResponse.ok (pre ++ e :: post)) = ([], [arxiv_error_msg m2]) := by
  obtain ⟨m2, hm2⟩ := mapExcept_append_error h pre post
  exact ⟨m2, by simp [search_arxiv, hm2]⟩

/-- C7 witness: the amended statement at a concrete feed with one good
and one bad entry. -/
theorem C7_amended_whole_response_abort_witness :
    ∃ m2, search_arxiv (ApiResponse.ok ([arxGoodEntry] ++ arxBadEntry :: []))
      = ([], [arxiv_error_msg m2]) :=
  C7_amended_whole_response_abort [arxGoodEntry] arxBadEntry [] "AttributeError" rfl

set_option maxRecDepth 40000 in
/-- C9: the Related Work list is the concatenation of one item per
paper over exactly the first `min 10 length` papers in order; each item
for a paper with title, at least two authors and a url is the bolded
escaped title, the first two authors joined by a comma, and the link;
and the fallback analysis skeleton used when no AI text is available
contains the three literal section markers. -/
theorem C9_related_work_and_fallback :
    (∀ papers : List Paper,
        paper_list papers = (mapExcept paper_item (papers.take 10)).map (py_join ""))
    ∧ (∀ papers : List Paper, (papers.take 10).length = min 10 papers.length)
    ∧ (∀ (t a1 a2 u : String) (rest : List (Option String)) (ab : Option String)
        (ai : Option String) (pdf : Option (Option String))
        (cats : Option (List (Option String))) (d : Option String)
        (y : Option (Option Int)) (ci : Option (Option Int)) (src : Option String),
        paper_item ⟨some (some t), some (some a1 :: some a2 :: rest), ab, ai,
            some (some u), pdf, cats, d, y, ci, src⟩
          = Except.ok ("    \\item \\textbf\x7b" ++ escape_title t ++ "\x7d by "
              ++ (a1 ++ ", " ++ a2) ++ ". \\url\x7b" ++ u ++ "\x7d\n"))
    ∧ theory_analysis_of ⟨none, none⟩ = theory_fallback_analysis
    ∧ str_contains theory_fallback_analysis "Problem Formulation" = true
    ∧ str_contains theory_fallback_analysis "Identifiability" = true
    ∧ str_contains theory_fallback_analysis "Convergence Analysis" = true := by
  refine ⟨?_, ?_, ?_, rfl, by decide, by decide, by decide⟩
  · intro papers
    cases h : mapExcept paper_item (papers.take 10) with
    | error m => simp [paper_list, h, Except.map]
    | ok items => simp [paper_list, h, Except.map]
  · intro papers
    exact List.length_take 10 papers
  · intro t a1 a2 u rest ab ai pdf cats d y ci src
    rfl

/-- C3 counterexample: a Paper whose `year` key is present holding the
integer zero still gets the fallback literal 2024 in its citation key
(Python truthiness, not key presence, selects the year), so the key is
`lovelace2024sparse` where the claim prescribes year `0`. -/
theorem C3_counterexample_zero_year :
    pYearZero.year = some (some 0)
    ∧ cite_key_of pYearZero = Except.ok "lovelace2024sparse"
    ∧ toString (0 : Int) = "0"
    ∧ ("lovelace2024sparse" : String) ≠ "lovelace0sparse" :=
  ⟨rfl, rfl, rfl, by decide⟩

/-- C3 amended: the citation key is lowercase(last token of the first
author) ++ year-string ++ lowercase(first token of the title), where
the year-string is the `year` value if present and truthy (non-`None`,
nonzero), else the first four characters of `date` when that prefix is
nonempty, else the literal 2024; the same year-string is interpolated
into the rendered year field of the entry; and the key depends only on
the authors, title, year and date fields, identically across calls. -/
theorem C3_amended_citation_key :
    (∀ (p : Paper) (a0 : String) (rest : List (Option String)) (t tok w : String),
        py_get_authors p = some a0 :: rest →
        py_get p.title "paper" = some t →
        (py_words a0).getLast? = some tok →
        (py_words t).head? = some w →
        cite_key_of p = Except.ok (py_lower tok ++ py_year p ++ py_lower w))
    ∧ (∀ (p : Paper) (y : Int), p.year = some (some y) → y ≠ 0 → py_year p = toString y)
    ∧ (∀ p : Paper, (p.year = none ∨ p.year = some none ∨ p.year = some (some 0)) →
        py_take 4 (Option.getD p.date "") ≠ "" →
        py_year p = py_take 4 (Option.getD p.date ""))
    ∧ (∀ p : Paper, (p.year = none ∨ p.year = some none ∨ p.year = some (some 0)) →
        py_take 4 (Option.getD p.date "") = "" → py_year p = "2024")
    ∧ (∀ (p : Paper) (key aS : String), cite_key_of p = Except.ok key →
        py_join_strs " and " (py_get_authors p) = Except.ok aS →
        generate_bibtex_entry p = Except.ok ("@article\x7b" ++ key ++ ",\n    title = \x7b"
          ++ py_str_or_none (py_get p.title "Unknown Title")
          ++ "\x7d,\n    author = \x7b" ++ aS
          ++ "\x7d,\n    year = \x7b" ++ py_year p
          ++ "\x7d,\n    url = \x7b" ++ py_str_or_none (py_get p.url "")
          ++ "\x7d,\n    note = \x7bSource: " ++ Option.getD p.source "Unknown"
          ++ "\x7d\n\x7d"))
    ∧ (∀ p q : Paper, p.authors = q.authors → p.title = q.title → p.year = q.year →
        p.date = q.date → cite_key_of p = cite_key_of q) := by
  refine ⟨?_, ?_, ?_, ?_, ?_, ?_⟩
  · intro p a0 rest t tok w h1 h2 h3 h4
    simp [cite_key_of, py_first_author_token, py_title_word, h1, h2, h3, h4,
      py_index, py_attr]
  · intro p y hy hy0
    simp [py_year, hy, Option.join, hy0]
  · intro p hy hd
    rcases hy with hy | hy | hy <;>
      simp [py_year, py_year_from_date, hy, Option.join, hd]
  · intro p hy hd
    rcases hy with hy | hy | hy <;>
      simp [py_year, py_year_from_date, hy, Option.join, hd]
  · intro p key aS h1 h2
    simp [generate_bibtex_entry, h1, h2]
  · intro p q ha ht hy hd
    simp only [cite_key_of, py_first_author_token, py_title_word, py_year,
      py_year_from_date, py_get_authors, py_get, ha, ht, hy, hd]

/-- C3 witness: the amended key equation and the double-fallback at a
concrete Paper with neither year nor date key. -/
theorem C3_amended_citation_key_witness :
    cite_key_of pYearNone
      = Except.ok (py_lower "Lovelace" ++ py_year pYearNone ++ py_lower "Sparse")
    ∧ py_year pYearNone = "2024" :=
  ⟨C3_amended_citation_key.1 pYearNone "Ada Lovelace" [] "Sparse recovery"
      "Lovelace" "Sparse" rfl rfl rfl rfl,
   C3_amended_citation_key.2.2.2.1 pYearNone (Or.inl rfl) rfl⟩
